import Mathlib

/-!
# Verification of the expense-tracker list/create lambda handlers

Shallow embedding of `src/lambdas/list_expenses/handler.py` and the
key-construction part of `src/lambdas/create-expense/handler.py`.

Conventions of the embedding:
* Python strings are modelled as `List Char` (`PyStr`); Python string
  comparison (used by the DynamoDB backing store on sort keys) is
  lexicographic on Unicode code points, modelled by `lexLt`/`lexLe`.
* Python `None` / missing dict entries are modelled with `Option`.
* Python truthiness of an optional string (`if s:`) is modelled by
  `truthyVal` (both `None` and the empty string are falsy).
* Python's `json.dumps` / `json.loads` (the pagination-cursor codec) are
  modelled by `Json.render` / `Json.parse` over a JSON value type.
  `Json.render` follows `json.dumps` defaults (`ensure_ascii=True`,
  separators `", "` and `": "`); `Json.parse` follows the strict JSON
  grammar accepted by `json.loads` (numbers are reduced to exact
  rationals; the `NaN`/`Infinity` extension and astral-plane `\u`
  surrogate pairing are left out, as no statement below depends on them).
* Exact rationals stand in for Python floats/Decimals; raised
  `ValueError`s are modelled with `Except`.
-/

/-- A Python string: its list of Unicode code points. -/
abbrev PyStr := List Char

/-- Embed a Lean string literal as a `PyStr`. -/
def pystr (s : String) : PyStr := s.data

/-- Lexicographic strict order on code-point lists: the comparison Python
applies to `str` and DynamoDB applies to string sort keys (UTF-8 byte
order coincides with code-point order). -/
def lexLt : PyStr → PyStr → Bool
  | _, [] => false
  | [], _ :: _ => true
  | a :: as, b :: bs => if a < b then true else if b < a then false else lexLt as bs

/-- `a ≤ b` in the same lexicographic order. -/
def lexLe (a b : PyStr) : Bool := lexLt a b || a == b

/-- The truthy value of an optional Python string: `none` for `None` and
for `""`, otherwise the (nonempty) string itself.  Mirrors `if s:`. -/
def truthyVal : Option PyStr → Option PyStr
  | none => none
  | some s => if s.isEmpty then none else some s

/-- Python truthiness test `if s:` for an optional string. -/
def pyTruthy (o : Option PyStr) : Bool := (truthyVal o).isSome

/-- Python `x or d` for an optional string `x` and a string default `d`. -/
def pyOr (o : Option PyStr) (d : PyStr) : PyStr :=
  match truthyVal o with
  | some s => s
  | none => d

/-! ## JSON values (`json.dumps` / `json.loads` model) -/

/-- A JSON value as produced by `json.loads` (numbers as exact rationals,
objects as ordered field lists — the dict insertion order `json.dumps`
serializes). -/
inductive Json where
  | null : Json
  | bool (b : Bool) : Json
  | num (q : ℚ) : Json
  | str (s : PyStr) : Json
  | arr (elems : List Json) : Json
  | obj (fields : List (PyStr × Json)) : Json

/-- One hex digit (lowercase), for `\uXXXX` escapes, as `json.dumps` emits. -/
def hexDigit (n : Nat) : Char :=
  if n < 10 then Char.ofNat (48 + n) else Char.ofNat (87 + n)

/-- A `\uXXXX` escape for a code unit `n < 0x10000`. -/
def uEscape (n : Nat) : PyStr :=
  ['\\', 'u', hexDigit (n / 4096 % 16), hexDigit (n / 256 % 16),
   hexDigit (n / 16 % 16), hexDigit (n % 16)]

/-- Escape one character the way `json.dumps` (with `ensure_ascii=True`)
does: `"` and `\` get backslash escapes, the common control characters get
short escapes, all other control or non-ASCII characters become `\uXXXX`
(a surrogate pair beyond the BMP). -/
def escChar (c : Char) : PyStr :=
  if c = '"' then ['\\', '"']
  else if c = '\\' then ['\\', '\\']
  else if c = Char.ofNat 8 then ['\\', 'b']
  else if c = Char.ofNat 12 then ['\\', 'f']
  else if c = '\n' then ['\\', 'n']
  else if c = '\r' then ['\\', 'r']
  else if c = '\t' then ['\\', 't']
  else if c.toNat < 32 then uEscape c.toNat
  else if c.toNat < 127 then [c]
  else if c.toNat < 65536 then uEscape c.toNat
  else
    let v := c.toNat - 65536
    uEscape (55296 + v / 1024) ++ uEscape (56320 + v % 1024)

/-- Escape every character of a string body. -/
def escAll : PyStr → PyStr
  | [] => []
  | c :: cs => escChar c ++ escAll cs

/-- Serialize a JSON string (quotes plus escaped body). -/
def renderStr (s : PyStr) : PyStr := '"' :: escAll s ++ ['"']

/-- Serialize an integer in decimal. -/
def renderInt (n : Int) : PyStr :=
  (toString n).data

/-- Serialize a JSON number.  `json.dumps` prints Python reprs; the model
prints integral values exactly and falls back to `num/den` notation
otherwise (no statement below serializes a non-integral number). -/
def renderNum (q : ℚ) : PyStr :=
  if q.den = 1 then renderInt q.num
  else renderInt q.num ++ ['/'] ++ renderInt (q.den : Int)

mutual
/-- Serialize a JSON value the way `json.dumps` does with its default
separators (`", "` between items, `": "` after keys). -/
def Json.render : Json → PyStr
  | .null => pystr "null"
  | .bool true => pystr "true"
  | .bool false => pystr "false"
  | .num q => renderNum q
  | .str s => renderStr s
  | .arr elems => '[' :: renderElems elems ++ [']']
  | .obj fields => '{' :: renderFields fields ++ ['}']

/-- Serialize array elements, `", "`-separated. -/
def renderElems : List Json → PyStr
  | [] => []
  | [v] => Json.render v
  | v :: rest => Json.render v ++ ',' :: ' ' :: renderElems rest

/-- Serialize object members, `", "`-separated, `": "` after each key. -/
def renderFields : List (PyStr × Json) → PyStr
  | [] => []
  | [(k, v)] => renderStr k ++ ':' :: ' ' :: Json.render v
  | (k, v) :: rest => renderStr k ++ ':' :: ' ' :: Json.render v ++ ',' :: ' ' :: renderFields rest
end

/-! ## JSON parsing (`json.loads` model) -/

/-- Skip the whitespace characters `json.loads` skips. -/
def skipWs : PyStr → PyStr
  | [] => []
  | c :: cs => if c = ' ' ∨ c = '\t' ∨ c = '\n' ∨ c = '\r' then skipWs cs else c :: cs

/-- Value of a hex digit, if any. -/
def hexVal (c : Char) : Option Nat :=
  if '0' ≤ c ∧ c ≤ '9' then some (c.toNat - 48)
  else if 'a' ≤ c ∧ c ≤ 'f' then some (c.toNat - 87)
  else if 'A' ≤ c ∧ c ≤ 'F' then some (c.toNat - 55)
  else none

/-- The character denoted by a single-character string escape, if any. -/
def escCode (c : Char) : Option Char :=
  if c = '"' then some '"'
  else if c = '\\' then some '\\'
  else if c = '/' then some '/'
  else if c = 'b' then some (Char.ofNat 8)
  else if c = 'f' then some (Char.ofNat 12)
  else if c = 'n' then some '\n'
  else if c = 'r' then some '\r'
  else if c = 't' then some '\t'
  else none

/-- Fuel-indexed worker for `parseStringBody` (the fuel only bounds the
recursion depth; one unit per consumed character suffices). -/
def parseSB : Nat → PyStr → Option (PyStr × PyStr)
  | 0, _ => none
  | _ + 1, [] => none
  | fuel + 1, c :: cs =>
    if c = '"' then some ([], cs)
    else if c = '\\' then
      match cs with
      | 'u' :: h1 :: h2 :: h3 :: h4 :: cs2 =>
        match hexVal h1, hexVal h2, hexVal h3, hexVal h4 with
        | some a, some b, some c3, some d =>
          match parseSB fuel cs2 with
          | some (content, rest) =>
            some (Char.ofNat (((a * 16 + b) * 16 + c3) * 16 + d) :: content, rest)
          | none => none
        | _, _, _, _ => none
      | e :: cs2 =>
        match escCode e with
        | some ch =>
          match parseSB fuel cs2 with
          | some (content, rest) => some (ch :: content, rest)
          | none => none
        | none => none
      | [] => none
    else if c.toNat < 32 then none
    else
      match parseSB fuel cs with
      | some (content, rest) => some (c :: content, rest)
      | none => none

/-- Parse a JSON string body after the opening quote; returns the decoded
content and the input remaining after the closing quote.  Raw control
characters are rejected, escapes are decoded, as in `json.loads`. -/
def parseStringBody (s : PyStr) : Option (PyStr × PyStr) := parseSB s.length s

/-- Split off a maximal run of decimal digits. -/
def takeDigits : PyStr → PyStr × PyStr
  | [] => ([], [])
  | c :: cs =>
    if c.isDigit then
      let (ds, rest) := takeDigits cs
      (c :: ds, rest)
    else ([], c :: cs)

/-- Numeric value of a digit run (most significant first). -/
def digitsToNat (acc : Nat) : PyStr → Nat
  | [] => acc
  | c :: cs => digitsToNat (acc * 10 + (c.toNat - 48)) cs

/-- Parse the integer part of a JSON number: `0`, or a nonzero digit
followed by more digits (JSON forbids other leading zeros). -/
def parseIntPart : PyStr → Option (Nat × PyStr)
  | [] => none
  | c :: cs =>
    if c = '0' then some (0, cs)
    else if c.isDigit then
      let (ds, rest) := takeDigits cs
      some (digitsToNat (c.toNat - 48) ds, rest)
    else none

/-- Parse the optional fraction part; returns (numerator, scale). -/
def parseFracPart : PyStr → Option ((Nat × Nat) × PyStr)
  | '.' :: cs =>
    match takeDigits cs with
    | ([], _) => none
    | (ds, rest) => some ((digitsToNat 0 ds, ds.length), rest)
  | s => some ((0, 0), s)

/-- Parse the optional exponent part. -/
def parseExpPart : PyStr → Option (Int × PyStr)
  | c :: cs =>
    if c = 'e' ∨ c = 'E' then
      match cs with
      | '+' :: cs2 =>
        match takeDigits cs2 with
        | ([], _) => none
        | (ds, rest) => some ((digitsToNat 0 ds : Int), rest)
      | '-' :: cs2 =>
        match takeDigits cs2 with
        | ([], _) => none
        | (ds, rest) => some (-(digitsToNat 0 ds : Int), rest)
      | cs2 =>
        match takeDigits cs2 with
        | ([], _) => none
        | (ds, rest) => some ((digitsToNat 0 ds : Int), rest)
    else some (0, c :: cs)
  | [] => some (0, [])

/-- Parse a JSON number (sign, integer part, fraction, exponent) into an
exact rational. -/
def parseNumber (s : PyStr) : Option (ℚ × PyStr) :=
  let (neg, s1) : Bool × PyStr :=
    match s with
    | '-' :: rest => (true, rest)
    | _ => (false, s)
  match parseIntPart s1 with
  | none => none
  | some (ip, s2) =>
    match parseFracPart s2 with
    | none => none
    | some ((fn, fs), s3) =>
      match parseExpPart s3 with
      | none => none
      | some (ex, s4) =>
        let scaled : Int := (ip * 10 ^ fs + fn : Nat)
        let mag : ℚ :=
          if 0 ≤ ex then Rat.divInt (scaled * 10 ^ ex.toNat) ((10 : Int) ^ fs)
          else Rat.divInt scaled ((10 : Int) ^ fs * 10 ^ (-ex).toNat)
        some (if neg then -mag else mag, s4)

mutual
/-- Parse one JSON value (fuel-indexed recursive descent mirroring
`json.loads`); returns the value and the unconsumed input. -/
def parseVal : Nat → PyStr → Option (Json × PyStr)
  | 0, _ => none
  | fuel + 1, s =>
    match skipWs s with
    | 'n' :: 'u' :: 'l' :: 'l' :: rest => some (.null, rest)
    | 't' :: 'r' :: 'u' :: 'e' :: rest => some (.bool true, rest)
    | 'f' :: 'a' :: 'l' :: 's' :: 'e' :: rest => some (.bool false, rest)
    | '"' :: rest =>
      match parseStringBody rest with
      | some (content, r) => some (.str content, r)
      | none => none
    | '[' :: rest =>
      match skipWs rest with
      | ']' :: r2 => some (.arr [], r2)
      | r2 =>
        match parseElems fuel r2 with
        | some (vs, r3) => some (.arr vs, r3)
        | none => none
    | '{' :: rest =>
      match skipWs rest with
      | '}' :: r2 => some (.obj [], r2)
      | r2 =>
        match parseMembers fuel r2 with
        | some (fs, r3) => some (.obj fs, r3)
        | none => none
    | s1 =>
      match parseNumber s1 with
      | some (q, r) => some (.num q, r)
      | none => none

/-- Parse the remaining elements of a nonempty JSON array. -/
def parseElems : Nat → PyStr → Option (List Json × PyStr)
  | 0, _ => none
  | fuel + 1, s =>
    match parseVal fuel s with
    | some (v, r) =>
      match skipWs r with
      | ',' :: r2 =>
        match parseElems fuel r2 with
        | some (vs, r3) => some (v :: vs, r3)
        | none => none
      | ']' :: r2 => some ([v], r2)
      | _ => none
    | none => none

/-- Parse the remaining members of a nonempty JSON object. -/
def parseMembers : Nat → PyStr → Option (List (PyStr × Json) × PyStr)
  | 0, _ => none
  | fuel + 1, s =>
    match skipWs s with
    | '"' :: r1 =>
      match parseStringBody r1 with
      | some (key, r2) =>
        match skipWs r2 with
        | ':' :: r3 =>
          match parseVal fuel r3 with
          | some (v, r4) =>
            match skipWs r4 with
            | ',' :: r5 =>
              match parseMembers fuel r5 with
              | some (fs, r6) => some ((key, v) :: fs, r6)
              | none => none
            | '}' :: r5 => some ([(key, v)], r5)
            | _ => none
          | none => none
        | _ => none
      | none => none
    | _ => none
end

/-- `json.loads`: parse a whole input string into a JSON value; trailing
non-whitespace (or any parse failure) is an error, modelled as `none`. -/
def Json.parse (s : PyStr) : Option Json :=
  match parseVal (s.length + 1) s with
  | some (v, rest) => if skipWs rest = [] then some v else none
  | none => none

/-! ## Date validation and normalization
(`validate_and_normalize_date`, list handler lines 247-263) -/

/-- Decimal value of a digit character. -/
def d2n (c : Char) : Nat := c.toNat - 48

/-- Gregorian leap-year rule (as `datetime` implements it). -/
def isLeapYear (y : Nat) : Bool := (y % 4 == 0 && y % 100 != 0) || y % 400 == 0

/-- Days in a month (as `datetime` validates them). -/
def daysInMonth (y m : Nat) : Nat :=
  if m = 2 then (if isLeapYear y then 29 else 28)
  else if m = 4 ∨ m = 6 ∨ m = 9 ∨ m = 11 then 30
  else 31

/-- Whether a 10-character string is a calendar date `YYYY-MM-DD` that
`datetime.strptime(date_str, %Y-%m-%d)` accepts: zero-padded digits (the
only 10-character shape that format matches without leftover input),
year at least `MINYEAR = 1`, month 1-12, day within the month. -/
def isValidDate10 : PyStr → Bool
  | [y1, y2, y3, y4, '-', m1, m2, '-', a1, a2] =>
    [y1, y2, y3, y4, m1, m2, a1, a2].all Char.isDigit &&
    (let y := ((d2n y1 * 10 + d2n y2) * 10 + d2n y3) * 10 + d2n y4
     let mo := d2n m1 * 10 + d2n m2
     let da := d2n a1 * 10 + d2n a2
     1 ≤ y && 1 ≤ mo && mo ≤ 12 && 1 ≤ da && da ≤ daysInMonth y mo)
  | _ => false

/-- Whether an 8-character string is a valid time of day `HH:MM:SS`. -/
def isValidTime8 : PyStr → Bool
  | [h1, h2, ':', m1, m2, ':', s1, s2] =>
    [h1, h2, m1, m2, s1, s2].all Char.isDigit &&
    (d2n h1 * 10 + d2n h2 ≤ 23) && (d2n m1 * 10 + d2n m2 ≤ 59) &&
    (d2n s1 * 10 + d2n s2 ≤ 59)
  | _ => false

/-- Modelled from the spec: the full-timestamp branch of the Date
Normalizer (spec 4.1), i.e. `datetime.fromisoformat(s.replace('Z',
'+00:00')).strftime('%Y-%m-%dT%H:%M:%SZ')`, restricted to the canonical
timestamp shapes `YYYY-MM-DDTHH:MM:SS`, with optional suffix `Z` or
`+00:00`.  (`fromisoformat` also accepts fractional seconds, other
offsets and other separators; no claim exercises those inputs.) -/
def parseIsoTs (s : PyStr) : Option PyStr :=
  let date := s.take 10
  let rest := s.drop 10
  if isValidDate10 date then
    match rest with
    | 'T' :: t =>
      let t8 := t.take 8
      let tz := t.drop 8
      if isValidTime8 t8 ∧ (tz = [] ∨ tz = ['Z'] ∨ tz = pystr "+00:00")
      then some (date ++ 'T' :: t8 ++ ['Z']) else none
    | _ => none
  else none

/-- `validate_and_normalize_date` (list handler lines 247-263): a bare
valid `YYYY-MM-DD` date is expanded to `YYYY-MM-DDT00:00:00Z` (what
`strptime` + `strftime('%Y-%m-%dT%H:%M:%SZ')` produce); anything else
goes through the `fromisoformat` branch; invalid input yields `none`. -/
def validate_and_normalize_date (s : PyStr) : Option PyStr :=
  if s.length = 10 then
    if isValidDate10 s then some (s ++ pystr "T00:00:00Z") else none
  else parseIsoTs s

/-! ## Data model: stored items and keys -/

/-- A stored expense record, with the attributes the create handler
writes (create handler lines 60-72) and the list handler reads. -/
structure Item where
  PK : PyStr
  SK : PyStr
  expenseID : PyStr
  merchantName : PyStr
  category : Option PyStr
  amount : ℚ
  receiptDate : PyStr
  createdAt : PyStr
  updatedAt : Option PyStr
  receipt : Option PyStr
  others : Option Json

/-- A DynamoDB `LastEvaluatedKey` / `ExclusiveStartKey` for this table:
the partition and sort key of the last record read. -/
structure KeyTuple where
  pk : PyStr
  sk : PyStr

/-- The dict shape in which the backing store hands back a last-evaluated
key (and in which `json.dumps` serializes it). -/
def keyJson (k : KeyTuple) : Json :=
  .obj [(pystr "PK", .str k.pk), (pystr "SK", .str k.sk)]

/-- Recover a key structure from a decoded cursor value, when it has the
shape the store produces. -/
def jsonToKey : Json → Option KeyTuple
  | .obj [(p, .str a), (s, .str b)] =>
    if p = pystr "PK" ∧ s = pystr "SK" then some ⟨a, b⟩ else none
  | _ => none

/-- The partition key the handlers build: `f'USER#{user_id}'`. -/
def userPartitionKey (user_id : PyStr) : PyStr := pystr "USER#" ++ user_id

/-- The sort key the create handler writes (create handler line 62):
`f'DATE#{receipt_date}#{expense_id}'`. -/
def createSortKey (receipt_date expense_id : PyStr) : PyStr :=
  pystr "DATE#" ++ receipt_date ++ pystr "#" ++ expense_id

/-! ## Key conditions and filter expressions -/

/-- The sort-key part of a `KeyConditionExpression`. -/
inductive SKCond where
  | between (lo hi : PyStr) : SKCond
  | gte (lo : PyStr) : SKCond
  | beginsWith (p : PyStr) : SKCond

/-- A `KeyConditionExpression`: equality on the partition key plus a
sort-key condition. -/
structure KeyCond where
  pk : PyStr
  sk : SKCond

/-- The upper range limit built for `date__lte`:
`f'DATE#{date_lte}#￿'` (list handler lines 148 and 157). -/
def upperBoundKey (date_lte : PyStr) : PyStr :=
  pystr "DATE#" ++ date_lte ++ pystr "#￿"

/-- The `KeyConditionExpression` construction of `query_with_filters`
(list handler lines 142-161), branching on Python truthiness of the two
(already normalized) date parameters. -/
def buildKeyCondition (pk : PyStr) (date_gte date_lte : Option PyStr) : KeyCond :=
  match truthyVal date_gte, truthyVal date_lte with
  | some g, some l => ⟨pk, .between (pystr "DATE#" ++ g) (upperBoundKey l)⟩
  | some g, none => ⟨pk, .gte (pystr "DATE#" ++ g)⟩
  | none, some l => ⟨pk, .between (pystr "DATE#") (upperBoundKey l)⟩
  | none, none => ⟨pk, .beginsWith (pystr "DATE#")⟩

/-- DynamoDB semantics of a key condition on a record's keys: partition
key equality, and the sort-key comparison in lexicographic string order
(`between` is inclusive at both ends). -/
def satisfiesKeyCond (kc : KeyCond) (pk sk : PyStr) : Bool :=
  pk == kc.pk &&
  (match kc.sk with
   | .between lo hi => lexLe lo sk && lexLe sk hi
   | .gte lo => lexLe lo sk
   | .beginsWith p => p.isPrefixOf sk)

/-- A DynamoDB filter expression, as the handlers build them from
`Attr(...)` conditions combined with `&`. -/
inductive FilterExpr where
  | attrEq (name val : PyStr) : FilterExpr
  | attrGte (name val : PyStr) : FilterExpr
  | attrLte (name val : PyStr) : FilterExpr
  | attrBeginsWith (name val : PyStr) : FilterExpr
  | attrContains (name val : PyStr) : FilterExpr
  | and (a b : FilterExpr) : FilterExpr

/-- The string attributes of an item addressable by filter expressions. -/
def itemStrAttr (it : Item) (name : PyStr) : Option PyStr :=
  if name = pystr "PK" then some it.PK
  else if name = pystr "SK" then some it.SK
  else if name = pystr "receiptDate" then some it.receiptDate
  else if name = pystr "category" then it.category
  else if name = pystr "merchantName" then some it.merchantName
  else none

/-- Whether `sub` occurs as a contiguous substring of `s`. -/
def containsSub (sub s : PyStr) : Bool :=
  if sub.isPrefixOf s then true
  else
    match s with
    | [] => false
    | _ :: t => containsSub sub t

/-- DynamoDB evaluation of a filter expression against an item (an absent
attribute fails every comparison; `contains` is the case-sensitive
substring test the store actually performs). -/
def evalFilter : FilterExpr → Item → Bool
  | .attrEq name v, it => itemStrAttr it name == some v
  | .attrGte name v, it =>
    match itemStrAttr it name with
    | some a => lexLe v a
    | none => false
  | .attrLte name v, it =>
    match itemStrAttr it name with
    | some a => lexLe a v
    | none => false
  | .attrBeginsWith name v, it =>
    match itemStrAttr it name with
    | some a => v.isPrefixOf a
    | none => false
  | .attrContains name v, it =>
    match itemStrAttr it name with
    | some a => containsSub v a
    | none => false
  | .and a b, it => evalFilter a it && evalFilter b it

/-! ## Store requests, responses, and the API Gateway event -/

/-- The keyword arguments `query_with_filters` passes to `table.query`
(list handler lines 163-178). -/
structure QueryKwargs where
  keyConditionExpression : KeyCond
  limit : Int
  scanIndexForward : Bool
  filterExpression : Option FilterExpr
  exclusiveStartKey : Option Json

/-- The keyword arguments `scan_with_search` passes to `table.scan`
(list handler lines 225-235). -/
structure ScanKwargs where
  filterExpression : FilterExpr
  limit : Int
  exclusiveStartKey : Option Json

/-- The backing store (DynamoDB table): its two operations, each
returning the page of items and the optional `LastEvaluatedKey`. -/
structure Store where
  query : QueryKwargs → List Item × Option KeyTuple
  scan : ScanKwargs → List Item × Option KeyTuple

/-- One observed invocation of the backing store. -/
inductive StoreCall where
  | queryCall (kw : QueryKwargs) : StoreCall
  | scanCall (kw : ScanKwargs) : StoreCall

/-- Cognito claims as they appear under the request authorizer. -/
structure CognitoClaims where
  sub : Option PyStr

/-- The `jwt` entry of an HTTP API authorizer. -/
structure JwtAuthorizer where
  claims : Option CognitoClaims

/-- The `authorizer` entry of a request context. -/
structure Authorizer where
  jwt : Option JwtAuthorizer
  claims : Option CognitoClaims

/-- The `requestContext` of an API Gateway event. -/
structure RequestContext where
  authorizer : Option Authorizer

/-- The query-string parameters the list handler reads. -/
structure QueryParams where
  date_gte : Option PyStr
  date_lte : Option PyStr
  category : Option PyStr
  search : Option PyStr
  limit : Option PyStr
  next_token : Option PyStr

/-- `queryStringParameters` when the event has none (`or {}`). -/
def emptyParams : QueryParams :=
  { date_gte := none, date_lte := none, category := none, search := none,
    limit := none, next_token := none }

/-- An API Gateway event, restricted to the entries the handler reads. -/
structure Event where
  requestContext : Option RequestContext
  queryStringParameters : Option QueryParams

/-- `get_user_id_from_event` (both handlers): the Cognito `sub` claim
from the JWT authorizer if a `jwt` entry exists, else from the REST
authorizer claims; `None` when absent. -/
def get_user_id_from_event (e : Event) : Option PyStr :=
  match e.requestContext with
  | none => none
  | some rc =>
    match rc.authorizer with
    | none => none
    | some auth =>
      match auth.jwt with
      | some jwtAuth => (jwtAuth.claims.getD ⟨none⟩).sub
      | none => (auth.claims.getD ⟨none⟩).sub

/-- A raised `ValueError`, caught at the top of the handler. -/
inductive PyErr where
  | valueError (msg : PyStr) : PyErr

/-- Python `int(s)` on a string: optional sign then decimal digits
(surrounding whitespace and underscore separators, which `int` also
accepts, are not modelled; no claim exercises them). -/
def pyInt (s : PyStr) : Option Int :=
  match s with
  | '-' :: ds =>
    if !ds.isEmpty && ds.all Char.isDigit then some (-(digitsToNat 0 ds : Int)) else none
  | '+' :: ds =>
    if !ds.isEmpty && ds.all Char.isDigit then some ((digitsToNat 0 ds : Int)) else none
  | ds =>
    if !ds.isEmpty && ds.all Char.isDigit then some ((digitsToNat 0 ds : Int)) else none

/-- `min(int(query_params.get('limit', 50)), 100)` (list handler line
55): 50 when the parameter is absent, otherwise the parsed value clamped
above at 100; a non-numeric string raises `ValueError`. -/
def computeLimit (raw : Option PyStr) : Except PyErr Int :=
  match raw with
  | none => .ok (min 50 100)
  | some s =>
    match pyInt s with
    | some n => .ok (min n 100)
    | none => .error (.valueError (pystr "invalid literal for int() with base 10"))

/-- The category filter `query_with_filters` adds when the category
parameter is truthy (list handler lines 170-171). -/
def categoryFilter (category : Option PyStr) : Option FilterExpr :=
  match truthyVal category with
  | some c => some (.attrEq (pystr "category") c)
  | none => none

/-- Decode the pagination token as both paths do (list handler lines
174-178 and 231-235): skipped when falsy, `json.loads` otherwise, a
parse failure raising `ValueError('Invalid next_token format')`. -/
def decodeNextToken (next_token : Option PyStr) : Except PyErr (Option Json) :=
  match truthyVal next_token with
  | some t =>
    match Json.parse t with
    | some v => .ok (some v)
    | none => .error (.valueError (pystr "Invalid next_token format"))
  | none => .ok none

/-- The `table.query` request `query_with_filters` builds (list handler
lines 140-178). -/
def buildQueryKwargs (user_id : PyStr) (date_gte date_lte category : Option PyStr)
    (limit : Int) (next_token : Option PyStr) : Except PyErr QueryKwargs :=
  match decodeNextToken next_token with
  | .error e => .error e
  | .ok esk =>
    .ok { keyConditionExpression := buildKeyCondition (userPartitionKey user_id) date_gte date_lte,
          limit := limit,
          scanIndexForward := false,
          filterExpression := categoryFilter category,
          exclusiveStartKey := esk }

/-- The conjunctive filter `scan_with_search` builds (list handler lines
200-223): partition match, sort-key prefix, optional date bounds on
`receiptDate`, optional category, optional merchant substring, combined
left-to-right with `&`. -/
def buildScanFilter (user_id : PyStr) (date_gte date_lte category search_term : Option PyStr) :
    FilterExpr :=
  let exprs : List FilterExpr :=
    [.attrEq (pystr "PK") (userPartitionKey user_id),
     .attrBeginsWith (pystr "SK") (pystr "DATE#")] ++
    (match truthyVal date_gte with
     | some g => [.attrGte (pystr "receiptDate") g]
     | none => []) ++
    (match truthyVal date_lte with
     | some l => [.attrLte (pystr "receiptDate") l]
     | none => []) ++
    (match truthyVal category with
     | some c => [.attrEq (pystr "category") c]
     | none => []) ++
    (match truthyVal search_term with
     | some s => [.attrContains (pystr "merchantName") s]
     | none => [])
  match exprs with
  | f :: rest => rest.foldl .and f
  | [] => .attrEq [] []

/-- The `table.scan` request `scan_with_search` builds (list handler
lines 200-235). -/
def buildScanKwargs (user_id : PyStr) (date_gte date_lte category search_term : Option PyStr)
    (limit : Int) (next_token : Option PyStr) : Except PyErr ScanKwargs :=
  match decodeNextToken next_token with
  | .error e => .error e
  | .ok esk =>
    .ok { filterExpression := buildScanFilter user_id date_gte date_lte category search_term,
          limit := limit,
          exclusiveStartKey := esk }

/-- `query_with_filters` (list handler lines 134-184): build the request,
invoke the store, return the page, the last key, and the observed call. -/
def query_with_filters (store : Store) (user_id : PyStr)
    (date_gte date_lte category : Option PyStr) (limit : Int) (next_token : Option PyStr) :
    Except PyErr ((List Item × Option KeyTuple) × StoreCall) :=
  match buildQueryKwargs user_id date_gte date_lte category limit next_token with
  | .error e => .error e
  | .ok kw => .ok (store.query kw, .queryCall kw)

/-- `scan_with_search` (list handler lines 187-244). -/
def scan_with_search (store : Store) (user_id : PyStr)
    (date_gte date_lte category search_term : Option PyStr) (limit : Int)
    (next_token : Option PyStr) :
    Except PyErr ((List Item × Option KeyTuple) × StoreCall) :=
  match buildScanKwargs user_id date_gte date_lte category search_term limit next_token with
  | .error e => .error e
  | .ok kw => .ok (store.scan kw, .scanCall kw)

/-! ## Response shaping -/

/-- One shaped expense of the public response (list handler lines
84-96). -/
structure ExpenseOut where
  expense_id : PyStr
  merchant_name : PyStr
  category : PyStr
  amount : ℚ
  receipt_date : PyStr
  created_at : PyStr
  updated_at : Option PyStr
  receipt : Option PyStr
  others : Json

/-- Shape one raw item into the public field set (list handler lines
86-96), defaulting a missing category to `uncategorized` and missing
`others` to `{}`. -/
def shapeItem (it : Item) : ExpenseOut :=
  { expense_id := it.expenseID,
    merchant_name := it.merchantName,
    category := it.category.getD (pystr "uncategorized"),
    amount := it.amount,
    receipt_date := it.receiptDate,
    created_at := it.createdAt,
    updated_at := it.updatedAt,
    receipt := it.receipt,
    others := it.others.getD (.obj []) }

/-- Python `round(x, 2)` on the page total, over exact rationals.
(Python rounds ties on binary floats to even; the difference can only
show on amounts finer than one cent, which the statements below do not
exercise.) -/
def pyRound2 (q : ℚ) : ℚ := ((q * 100 + 1 / 2).floor : ℚ) / 100

/-- The body of a successful list response (list handler lines
101-106). -/
structure SuccessData where
  count : Nat
  total_amount : ℚ
  next_token : Option PyStr
  expenses : List ExpenseOut

/-- Build the success response data: shaped expenses, their count, the
page total, and the re-encoded pagination token (list handler lines
83-106). -/
def buildResponseData (items : List Item) (lastKey : Option KeyTuple) : SuccessData :=
  let expenses := items.map shapeItem
  { count := expenses.length,
    total_amount := pyRound2 ((expenses.map fun e => e.amount).sum),
    next_token := lastKey.map fun k => Json.render (keyJson k),
    expenses := expenses }

/-- An HTTP response body: shaped success data, or the error payload of
`create_error_response`. -/
inductive RespBody where
  | success (d : SuccessData) : RespBody
  | failure (msg : PyStr) (code : Nat) : RespBody

/-- An HTTP response (status plus body; constant headers omitted). -/
structure Response where
  statusCode : Nat
  body : RespBody

/-- `create_error_response` (list handler lines 294-308). -/
def create_error_response (statusCode : Nat) (message : PyStr) : Response :=
  ⟨statusCode, .failure message statusCode⟩

/-- A 200 response around shaped data (list handler lines 110-119). -/
def successResponse (d : SuccessData) : Response := ⟨200, .success d⟩

/-! ## The list handler -/

/-- Normalize one optional date parameter as the handler does (list
handler lines 59-67): skipped when falsy, else validated and replaced by
its normalized form; `none` signals the 400 early return. -/
def normDateParam (p : Option PyStr) : Option (Option PyStr) :=
  match truthyVal p with
  | some d =>
    match validate_and_normalize_date d with
    | some nd => some (some nd)
    | none => none
  | none => some p

/-- The body of `lambda_handler` inside its `try` (list handler lines
43-119): identity resolution with the hardcoded fallback, parameter
parsing, date validation, strategy dispatch, and response shaping.
`ValueError`s escape to the caller. -/
def handlerBody (store : Store) (event : Event) :
    Except PyErr (Response × List StoreCall) :=
  let user_id := pyOr (get_user_id_from_event event) (pystr "darpankattel")
  if user_id.isEmpty then
    .ok (create_error_response 401 (pystr "Unauthorized: Invalid token"), [])
  else
    let qp := event.queryStringParameters.getD emptyParams
    match computeLimit qp.limit with
    | .error e => .error e
    | .ok limit =>
      match normDateParam qp.date_gte with
      | none =>
        .ok (create_error_response 400 (pystr "Invalid date__gte format. Use YYYY-MM-DD or ISO format"), [])
      | some date_gte =>
        match normDateParam qp.date_lte with
        | none =>
          .ok (create_error_response 400 (pystr "Invalid date__lte format. Use YYYY-MM-DD or ISO format"), [])
        | some date_lte =>
          if pyTruthy qp.search then
            match scan_with_search store user_id date_gte date_lte qp.category qp.search
                limit qp.next_token with
            | .error e => .error e
            | .ok ((items, lastKey), call) =>
              .ok (successResponse (buildResponseData items lastKey), [call])
          else
            match query_with_filters store user_id date_gte date_lte qp.category
                limit qp.next_token with
            | .error e => .error e
            | .ok ((items, lastKey), call) =>
              .ok (successResponse (buildResponseData items lastKey), [call])

/-- `lambda_handler` (list handler lines 31-131): the handler body with
the `except ValueError` boundary mapping a raised `ValueError` to a 400
response (`str(e)` as the message).  Returns the response together with
the list of backing-store invocations that occurred. -/
def lambda_handler (store : Store) (event : Event) : Response × List StoreCall :=
  match handlerBody store event with
  | .ok rc => rc
  | .error (.valueError msg) => (create_error_response 400 msg, [])

/-! ## Reference backing store -/

/-- Modelled from the spec: the backing-store collaborator's `rangeQuery`
operation (spec section 6) over an in-memory table held in ascending
sort-key order — DynamoDB `Query` semantics: select the records of the
partition satisfying the key condition, order them (descending here,
`ScanIndexForward=False`), resume strictly after the cursor key, truncate
to `Limit` (the limit applies before the filter expression), apply the
filter expression, and report a `LastEvaluatedKey` exactly when records
remain beyond the truncated page. -/
def refQuery (table : List Item) (kw : QueryKwargs) : List Item × Option KeyTuple :=
  let matching := table.filter fun it => satisfiesKeyCond kw.keyConditionExpression it.PK it.SK
  let ordered := if kw.scanIndexForward then matching else matching.reverse
  let resumed :=
    match kw.exclusiveStartKey with
    | none => ordered
    | some j =>
      match jsonToKey j with
      | some kt => ordered.filter fun it => lexLt it.SK kt.sk
      | none => ordered
  let page := resumed.take kw.limit.toNat
  let results :=
    match kw.filterExpression with
    | some fe => page.filter (evalFilter fe)
    | none => page
  let lastKey :=
    if page.length < resumed.length then
      page.getLast?.map fun it => (⟨it.PK, it.SK⟩ : KeyTuple)
    else none
  (results, lastKey)

/-- Modelled from the spec: a backing store over an in-memory table.  The
`scan` operation is left trivial; no statement below reaches it through
this store. -/
def refStore (table : List Item) : Store :=
  { query := refQuery table, scan := fun _ => ([], none) }

/-- A store that returns an empty page for every request. -/
def emptyStore : Store :=
  { query := fun _ => ([], none), scan := fun _ => ([], none) }

/-! ## Concrete fixtures used in the closed evaluations below -/

/-- Characters that `json.dumps` passes through unescaped: printable
ASCII other than the quote and the backslash.  Every partition/sort key
this system writes (`USER#<sub>`, `DATE#<date>#<uuid>`) consists of such
characters. -/
def jsonSafeChar (c : Char) : Bool :=
  32 ≤ c.toNat && c.toNat ≤ 126 && c ≠ '"' && c ≠ '\\'

/-- A stored record of user `u1` dated 2025-01-10. -/
def itJan10 : Item :=
  { PK := pystr "USER#u1", SK := pystr "DATE#2025-01-10#aaaa1111",
    expenseID := pystr "aaaa1111", merchantName := pystr "Blue Bottle Coffee",
    category := some (pystr "Food"), amount := 10,
    receiptDate := pystr "2025-01-10", createdAt := pystr "2025-01-10T09:00:00",
    updatedAt := none, receipt := none, others := none }

/-- A stored record of user `u1` dated 2025-01-15. -/
def itJan15 : Item :=
  { PK := pystr "USER#u1", SK := pystr "DATE#2025-01-15#bbbb2222",
    expenseID := pystr "bbbb2222", merchantName := pystr "Amazon",
    category := some (pystr "Shopping"), amount := 25,
    receiptDate := pystr "2025-01-15", createdAt := pystr "2025-01-15T09:00:00",
    updatedAt := none, receipt := none, others := none }

/-- A list request of authenticated user `u1` with `date__gte=2025-01-15`
and no other parameter. -/
def eventU1From15 : Event :=
  { requestContext := some ⟨some ⟨none, some ⟨some (pystr "u1")⟩⟩⟩,
    queryStringParameters := some
      { date_gte := some (pystr "2025-01-15"), date_lte := none, category := none,
        search := none, limit := none, next_token := none } }

/-- A list request whose event carries no resolved identity at all. -/
def eventNoIdentity : Event := { requestContext := none, queryStringParameters := none }

/-- A list request with `limit=0` and no identity or other parameter. -/
def eventLimitZero : Event :=
  { requestContext := none,
    queryStringParameters := some
      { date_gte := none, date_lte := none, category := none,
        search := none, limit := some (pystr "0"), next_token := none } }

/-! ## Order and truthiness lemmas -/

theorem lexLt_append (p a b : PyStr) : lexLt (p ++ a) (p ++ b) = lexLt a b := by
  induction p with
  | nil => rfl
  | cons c cs ih => simp [lexLt, ih]

theorem truthyVal_ne_nil {o : Option PyStr} {s : PyStr} (h : truthyVal o = some s) :
    s.isEmpty = false := by
  cases o with
  | none => simp [truthyVal] at h
  | some s0 =>
    rw [truthyVal] at h
    by_cases he : s0.isEmpty
    · simp [he] at h
    · simp [he] at h
      subst h
      simpa using he

theorem pyOr_fallback_isEmpty (o : Option PyStr) :
    (pyOr o (pystr "darpankattel")).isEmpty = false := by
  rw [pyOr]
  cases h : truthyVal o with
  | none => rfl
  | some s => exact truthyVal_ne_nil h

theorem truthyVal_some_of_ne {t : PyStr} (ht : t ≠ []) : truthyVal (some t) = some t := by
  have he : t.isEmpty = false := by
    cases t with
    | nil => exact absurd rfl ht
    | cons a l => rfl
  simp [truthyVal, he]

/-! ## Lemmas on the JSON codec -/

theorem escChar_safe (c : Char) (h : jsonSafeChar c = true) : escChar c = [c] := by
  simp only [jsonSafeChar, Bool.and_eq_true, decide_eq_true_eq] at h
  obtain ⟨⟨⟨h32, h126⟩, hq⟩, hbs⟩ := h
  rw [escChar, if_neg hq, if_neg hbs,
    if_neg (fun hc => absurd (hc ▸ h32) (by decide)),
    if_neg (fun hc => absurd (hc ▸ h32) (by decide)),
    if_neg (fun hc => absurd (hc ▸ h32) (by decide)),
    if_neg (fun hc => absurd (hc ▸ h32) (by decide)),
    if_neg (fun hc => absurd (hc ▸ h32) (by decide)),
    if_neg (by omega), if_pos (by omega)]

theorem escAll_safe (s : PyStr) (h : ∀ c ∈ s, jsonSafeChar c = true) : escAll s = s := by
  induction s with
  | nil => rfl
  | cons c cs ih =>
    rw [escAll, escChar_safe c (h c (by simp)), ih (fun x hx => h x (by simp [hx]))]
    rfl

theorem parseSB_safe (s : PyStr) (h : ∀ c ∈ s, jsonSafeChar c = true) :
    ∀ fuel rest, s.length < fuel → parseSB fuel (s ++ '"' :: rest) = some (s, rest) := by
  induction s with
  | nil =>
    intro fuel rest hf
    match fuel, hf with
    | f + 1, _ => simp [parseSB]
  | cons c cs ih =>
    intro fuel rest hf
    match fuel, hf with
    | f + 1, hf =>
      have hc := h c (by simp)
      simp only [jsonSafeChar, Bool.and_eq_true, decide_eq_true_eq] at hc
      obtain ⟨⟨⟨h32, h126⟩, hq⟩, hbs⟩ := hc
      have hlt : ¬ c.toNat < 32 := by omega
      rw [List.cons_append]
      simp only [parseSB, if_neg hq, if_neg hbs, if_neg hlt,
        ih (fun x hx => h x (by simp [hx])) f rest (by simpa using Nat.lt_of_succ_lt_succ hf)]

theorem parseStringBody_safe (s rest : PyStr) (h : ∀ c ∈ s, jsonSafeChar c = true) :
    parseStringBody (s ++ '"' :: rest) = some (s, rest) := by
  rw [parseStringBody]
  exact parseSB_safe s h _ rest (by simp)

theorem parseVal_key (f : Nat) (pk sk rest : PyStr)
    (hpk : ∀ c ∈ pk, jsonSafeChar c = true) (hsk : ∀ c ∈ sk, jsonSafeChar c = true) :
    parseVal (f + 4) (Json.render (keyJson ⟨pk, sk⟩) ++ rest) =
      some (keyJson ⟨pk, sk⟩, rest) := by
  have hP : ∀ A, parseStringBody (pystr "PK" ++ '"' :: A) = some (pystr "PK", A) :=
    fun A => parseStringBody_safe _ A (by decide)
  have hS : ∀ A, parseStringBody (pystr "SK" ++ '"' :: A) = some (pystr "SK", A) :=
    fun A => parseStringBody_safe _ A (by decide)
  have hpk' : ∀ A, parseStringBody (pk ++ '"' :: A) = some (pk, A) :=
    fun A => parseStringBody_safe pk A hpk
  have hsk' : ∀ A, parseStringBody (sk ++ '"' :: A) = some (sk, A) :=
    fun A => parseStringBody_safe sk A hsk
  have hPe : escAll (pystr "PK") = pystr "PK" := by rfl
  have hSe : escAll (pystr "SK") = pystr "SK" := by rfl
  simp only [keyJson, Json.render, renderFields, renderStr, escAll_safe pk hpk,
    escAll_safe sk hsk, hPe, hSe, List.append_assoc, List.cons_append, List.nil_append,
    List.singleton_append]
  simp only [show f + 4 = f + 3 + 1 from rfl, show f + 3 = f + 2 + 1 from rfl,
    show f + 2 = f + 1 + 1 from rfl]
  simp [parseVal, parseMembers, skipWs, hP, hS, hpk', hsk']

theorem render_key_length (k : KeyTuple) : 3 ≤ (Json.render (keyJson k)).length := by
  simp [Json.render, keyJson, renderFields, renderStr, List.length_append]
  omega

theorem parse_render_key (pk sk : PyStr)
    (hpk : ∀ c ∈ pk, jsonSafeChar c = true) (hsk : ∀ c ∈ sk, jsonSafeChar c = true) :
    Json.parse (Json.render (keyJson ⟨pk, sk⟩)) = some (keyJson ⟨pk, sk⟩) := by
  have hlen := render_key_length ⟨pk, sk⟩
  rw [Json.parse, show (Json.render (keyJson ⟨pk, sk⟩)).length + 1 =
    ((Json.render (keyJson ⟨pk, sk⟩)).length - 3) + 4 from by omega,
    show Json.render (keyJson ⟨pk, sk⟩) = Json.render (keyJson ⟨pk, sk⟩) ++ [] from
      (List.append_nil _).symm]
  rw [parseVal_key _ pk sk [] hpk hsk]
  rfl

/-! ## Rounding lemmas -/

theorem ratFloor_eq_intFloor (q : ℚ) : q.floor = ⌊q⌋ :=
  (Rat.floor_def' q).trans Rat.floor_def.symm

theorem pyRound2_cents (n : ℤ) : pyRound2 ((n : ℚ) / 100) = (n : ℚ) / 100 := by
  rw [pyRound2, div_mul_cancel₀ _ (by norm_num : (100 : ℚ) ≠ 0), ratFloor_eq_intFloor,
    Int.floor_int_add]
  norm_num

theorem sum_cents (l : List ℚ) (h : ∀ q ∈ l, ∃ n : ℤ, q = (n : ℚ) / 100) :
    ∃ m : ℤ, l.sum = (m : ℚ) / 100 := by
  induction l with
  | nil => exact ⟨0, by norm_num⟩
  | cons q qs ih =>
    obtain ⟨n, hn⟩ := h q (by simp)
    obtain ⟨m, hm⟩ := ih (fun x hx => h x (by simp [hx]))
    refine ⟨n + m, ?_⟩
    rw [List.sum_cons, hn, hm]
    push_cast
    ring

/-! ## Claim theorems -/

/-- C4: for every valid last-key value (a partition-key/sort-key
structure over the printable-ASCII key alphabet the store produces),
decoding the `json.dumps`-encoded pagination token with `json.loads`
reproduces the key structure exactly: `decode(encode(k)) = k`. -/
theorem C4_cursor_round_trip (k : KeyTuple)
    (hpk : ∀ c ∈ k.pk, jsonSafeChar c = true) (hsk : ∀ c ∈ k.sk, jsonSafeChar c = true) :
    Json.parse (Json.render (keyJson k)) = some (keyJson k) := by
  obtain ⟨pk, sk⟩ := k
  exact parse_render_key pk sk hpk hsk

/-- Witness for C4 at the concrete last key
`{PK: USER#u1, SK: DATE#2025-01-10#aaaa1111}`. -/
theorem C4_cursor_round_trip_witness :
    Json.parse (Json.render (keyJson ⟨pystr "USER#u1", pystr "DATE#2025-01-10#aaaa1111"⟩)) =
      some (keyJson ⟨pystr "USER#u1", pystr "DATE#2025-01-10#aaaa1111"⟩) :=
  C4_cursor_round_trip ⟨pystr "USER#u1", pystr "DATE#2025-01-10#aaaa1111"⟩
    (by decide) (by decide)

/-- C6: a record whose `receipt_date` equals the supplied (10-character)
upper bound has sort key `DATE#<receipt_date>#<expense_id>` at most the
constructed upper range limit `DATE#<normalized>#<sentinel>`, whatever
its `expense_id` suffix; and the `U+FFFF` sentinel indeed sorts after
every character the UUID generator can produce. -/
theorem C6_upper_bound_covers_entire_day (d expense_id nd : PyStr)
    (hlen : d.length = 10) (hv : validate_and_normalize_date d = some nd) :
    lexLe (createSortKey d expense_id) (upperBoundKey nd) = true ∧
    (pystr "0123456789abcdef-").all (fun c => c.toNat < 0xffff) = true := by
  refine ⟨?_, by decide⟩
  have hnd : nd = d ++ pystr "T00:00:00Z" := by
    unfold validate_and_normalize_date at hv
    rw [if_pos hlen] at hv
    by_cases h : isValidDate10 d = true
    · rw [if_pos h] at hv
      exact (Option.some_inj.mp hv).symm
    · rw [if_neg h] at hv
      exact absurd hv (by simp)
  subst hnd
  have h1 : createSortKey d expense_id = (pystr "DATE#" ++ d) ++ ('#' :: expense_id) := by
    simp [createSortKey, pystr, List.append_assoc]
  have h2 : upperBoundKey (d ++ pystr "T00:00:00Z") =
      (pystr "DATE#" ++ d) ++ ('T' :: (pystr "00:00:00Z" ++ pystr "#￿")) := by
    simp [upperBoundKey, pystr, List.append_assoc]
  rw [h1, h2]
  simp [lexLe, lexLt_append, lexLt]

/-- Witness for C6 at `receipt_date = 2025-01-15` and suffix
`bbbb2222`. -/
theorem C6_upper_bound_witness :
    lexLe (createSortKey (pystr "2025-01-15") (pystr "bbbb2222"))
        (upperBoundKey (pystr "2025-01-15T00:00:00Z")) = true ∧
    (pystr "0123456789abcdef-").all (fun c => c.toNat < 0xffff) = true :=
  C6_upper_bound_covers_entire_day (pystr "2025-01-15") (pystr "bbbb2222")
    (pystr "2025-01-15T00:00:00Z") (by decide) (by rfl)

/-- C7: in every successful list response the reported `total_amount` is
computed over exactly the shaped records returned in that page — when the
page's amounts are whole numbers of cents (the data model's monetary
granularity) it equals their sum precisely. -/
theorem C7_page_total_is_sum_of_page_amounts (items : List Item) (lastKey : Option KeyTuple)
    (h : ∀ it ∈ items, ∃ n : ℤ, it.amount = (n : ℚ) / 100) :
    (buildResponseData items lastKey).expenses = items.map shapeItem ∧
    (buildResponseData items lastKey).total_amount =
      (((buildResponseData items lastKey).expenses).map fun e => e.amount).sum := by
  refine ⟨rfl, ?_⟩
  show pyRound2 (((items.map shapeItem).map fun e => e.amount).sum) =
    ((items.map shapeItem).map fun e => e.amount).sum
  have hl : ∀ q ∈ (items.map shapeItem).map fun e => e.amount, ∃ n : ℤ, q = (n : ℚ) / 100 := by
    intro q hq
    simp only [List.mem_map] at hq
    obtain ⟨e, ⟨it, hit, rfl⟩, rfl⟩ := hq
    exact h it hit
  obtain ⟨m, hm⟩ := sum_cents _ hl
  rw [hm, pyRound2_cents]

/-- Witness for C7 on the page `[itJan10, itJan15]` (amounts 10 and
25). -/
theorem C7_page_total_witness :
    (buildResponseData [itJan10, itJan15] none).expenses = [itJan10, itJan15].map shapeItem ∧
    (buildResponseData [itJan10, itJan15] none).total_amount =
      (((buildResponseData [itJan10, itJan15] none).expenses).map fun e => e.amount).sum :=
  C7_page_total_is_sum_of_page_amounts [itJan10, itJan15] none (by
    intro it hit
    simp only [List.mem_cons, List.not_mem_nil, or_false] at hit
    rcases hit with rfl | rfl
    · exact ⟨1000, by norm_num [itJan10]⟩
    · exact ⟨2500, by norm_num [itJan15]⟩)

/-- C9: in range-query mode the category filter never alters the
`KeyConditionExpression` — for any date bounds, limit and cursor, the key
condition built with a category equals the one built without it, and the
category shows up only as the separate post-range filter expression. -/
theorem C9_category_does_not_change_key_range (user_id : PyStr)
    (date_gte date_lte : Option PyStr) (c : PyStr) (limit : Int) (next_token : Option PyStr) :
    Except.map (fun kw => kw.keyConditionExpression)
        (buildQueryKwargs user_id date_gte date_lte (some c) limit next_token) =
      Except.map (fun kw => kw.keyConditionExpression)
        (buildQueryKwargs user_id date_gte date_lte none limit next_token) ∧
    ∀ kw, buildQueryKwargs user_id date_gte date_lte (some c) limit next_token = .ok kw →
      kw.filterExpression = categoryFilter (some c) := by
  constructor
  · rw [buildQueryKwargs, buildQueryKwargs]
    cases decodeNextToken next_token <;> rfl
  · intro kw hkw
    rw [buildQueryKwargs] at hkw
    cases hd : decodeNextToken next_token <;> rw [hd] at hkw
    · exact absurd hkw (by simp)
    · cases hkw
      rfl

/-- Witness for C9 at category `Food` with no cursor. -/
theorem C9_category_frame_witness :
    Except.map (fun kw => kw.keyConditionExpression)
        (buildQueryKwargs (pystr "u1") none none (some (pystr "Food")) 50 none) =
      Except.map (fun kw => kw.keyConditionExpression)
        (buildQueryKwargs (pystr "u1") none none none 50 none) ∧
    ({ keyConditionExpression := buildKeyCondition (userPartitionKey (pystr "u1")) none none,
       limit := 50, scanIndexForward := false,
       filterExpression := categoryFilter (some (pystr "Food")),
       exclusiveStartKey := none } : QueryKwargs).filterExpression =
      categoryFilter (some (pystr "Food")) :=
  ⟨(C9_category_does_not_change_key_range (pystr "u1") none none (pystr "Food") 50 none).1,
   (C9_category_does_not_change_key_range (pystr "u1") none none (pystr "Food") 50 none).2
     _ rfl⟩

/-- C10: cursor decoding checks only JSON well-formedness, not key
structure — any token that parses as any JSON value (an object, `null`, a
number, an array, ...) is accepted by both request builders and its
decoded value is forwarded verbatim as the store request's
`ExclusiveStartKey`; exactly the tokens that fail JSON parsing raise the
invalid-token `ValueError`. -/
theorem C10_cursor_decode_forwards_any_json (user_id : PyStr)
    (date_gte date_lte category search_term : Option PyStr) (limit : Int)
    (t : PyStr) (ht : t ≠ []) :
    (∀ v, Json.parse t = some v →
      buildQueryKwargs user_id date_gte date_lte category limit (some t) =
        .ok { keyConditionExpression := buildKeyCondition (userPartitionKey user_id) date_gte date_lte,
              limit := limit, scanIndexForward := false,
              filterExpression := categoryFilter category,
              exclusiveStartKey := some v } ∧
      buildScanKwargs user_id date_gte date_lte category search_term limit (some t) =
        .ok { filterExpression := buildScanFilter user_id date_gte date_lte category search_term,
              limit := limit, exclusiveStartKey := some v }) ∧
    (Json.parse t = none →
      buildQueryKwargs user_id date_gte date_lte category limit (some t) =
        .error (.valueError (pystr "Invalid next_token format")) ∧
      buildScanKwargs user_id date_gte date_lte category search_term limit (some t) =
        .error (.valueError (pystr "Invalid next_token format"))) := by
  have htv := truthyVal_some_of_ne ht
  constructor
  · intro v hv
    constructor <;> simp [buildQueryKwargs, buildScanKwargs, decodeNextToken, htv, hv]
  · intro hv
    constructor <;> simp [buildQueryKwargs, buildScanKwargs, decodeNextToken, htv, hv]

/-- Witness for C10 at the structurally keyless token `null`: both
builders forward `null` as the resume key. -/
theorem C10_cursor_decode_witness :
    buildQueryKwargs (pystr "u1") none none none 50 (some (pystr "null")) =
      .ok { keyConditionExpression := buildKeyCondition (userPartitionKey (pystr "u1")) none none,
            limit := 50, scanIndexForward := false,
            filterExpression := categoryFilter none,
            exclusiveStartKey := some .null } ∧
    buildScanKwargs (pystr "u1") none none none none 50 (some (pystr "null")) =
      .ok { filterExpression := buildScanFilter (pystr "u1") none none none none,
            limit := 50, exclusiveStartKey := some .null } :=
  (C10_cursor_decode_forwards_any_json (pystr "u1") none none none none 50
    (pystr "null") (by decide)).1 .null (by rfl)

/-- Counterexample to C8 as stated: a supplied `limit=0` (outside 1-100)
is not rejected as a validation error — `computeLimit` accepts it as 0,
and the handler passes `Limit: 0` to the backing store while answering
200. -/
theorem C8_limit_zero_used_counterexample :
    computeLimit (some (pystr "0")) = .ok 0 ∧ (0 : Int) < 1 ∧
    lambda_handler emptyStore eventLimitZero =
      (successResponse (buildResponseData [] none),
       [.queryCall { keyConditionExpression :=
                       ⟨pystr "USER#darpankattel", .beginsWith (pystr "DATE#")⟩,
                     limit := 0, scanIndexForward := false,
                     filterExpression := none, exclusiveStartKey := none }]) :=
  ⟨rfl, by omega, rfl⟩

/-- C8 (amended): the effective page size is 50 when the limit parameter
is absent and is otherwise `min(limit, 100)` — clamped above at 100 but
passed through unchanged below 1; only a non-numeric limit string is
rejected (as a `ValueError`, surfaced as a 400). -/
theorem C8_limit_default_and_clamping (raw : Option PyStr) :
    (raw = none → computeLimit raw = .ok 50) ∧
    (∀ s n, raw = some s → pyInt s = some n → computeLimit raw = .ok (min n 100)) ∧
    (∀ s, raw = some s → pyInt s = none →
      computeLimit raw =
        .error (.valueError (pystr "invalid literal for int() with base 10"))) := by
  refine ⟨?_, ?_, ?_⟩
  · rintro rfl
    rfl
  · rintro s n rfl hp
    simp [computeLimit, hp]
  · rintro s rfl hp
    simp [computeLimit, hp]

/-- Witness for the amended C8 at `limit=200`: the value is clamped to
100, not rejected. -/
theorem C8_limit_clamping_witness :
    computeLimit (some (pystr "200")) = .ok (min 200 100) ∧ min (200 : Int) 100 = 100 :=
  ⟨(C8_limit_default_and_clamping (some (pystr "200"))).2.1 _ 200 rfl (by rfl), by omega⟩

/-- C3: strategy selection depends only on the search term — for every
store, identity, category and (valid) date filters, a truthy search term
makes the handler issue exactly one `scan` store call, and a falsy one
exactly one range-`query` call. -/
theorem C3_strategy_selected_solely_by_search (store : Store) (rc : Option RequestContext)
    (gte lte cat search : Option PyStr)
    (hg : normDateParam gte ≠ none) (hl : normDateParam lte ≠ none) :
    (pyTruthy search = true → ∃ kw,
      (lambda_handler store
        { requestContext := rc,
          queryStringParameters := some
            { date_gte := gte, date_lte := lte, category := cat, search := search,
              limit := none, next_token := none } }).2 = [.scanCall kw]) ∧
    (pyTruthy search = false → ∃ kw,
      (lambda_handler store
        { requestContext := rc,
          queryStringParameters := some
            { date_gte := gte, date_lte := lte, category := cat, search := search,
              limit := none, next_token := none } }).2 = [.queryCall kw]) := by
  have huser := pyOr_fallback_isEmpty (get_user_id_from_event
    { requestContext := rc,
      queryStringParameters := some
        { date_gte := gte, date_lte := lte, category := cat, search := search,
          limit := none, next_token := none } })
  obtain ⟨g', hg'⟩ := Option.ne_none_iff_exists'.mp hg
  obtain ⟨l', hl'⟩ := Option.ne_none_iff_exists'.mp hl
  constructor
  · intro hs
    simp [lambda_handler, handlerBody, huser, hg', hl', hs, scan_with_search,
      buildScanKwargs, decodeNextToken, computeLimit, truthyVal]
  · intro hs
    simp [lambda_handler, handlerBody, huser, hg', hl', hs, query_with_filters,
      buildQueryKwargs, decodeNextToken, computeLimit, truthyVal]

/-- Witness for C3: with a search term present the scan path runs, and
with dates but no search term the range-query path runs. -/
theorem C3_strategy_selection_witness :
    (∃ kw,
      (lambda_handler emptyStore
        { requestContext := none,
          queryStringParameters := some
            { date_gte := none, date_lte := none, category := none,
              search := some (pystr "coffee"), limit := none, next_token := none } }).2 =
        [.scanCall kw]) ∧
    (∃ kw,
      (lambda_handler emptyStore
        { requestContext := none,
          queryStringParameters := some
            { date_gte := some (pystr "2025-01-10"), date_lte := none,
              category := some (pystr "Food"), search := none,
              limit := none, next_token := none } }).2 = [.queryCall kw]) :=
  ⟨(C3_strategy_selected_solely_by_search emptyStore none none none none
      (some (pystr "coffee")) (by decide) (by decide)).1 (by rfl),
   (C3_strategy_selected_solely_by_search emptyStore none (some (pystr "2025-01-10")) none
      (some (pystr "Food")) none (by decide) (by decide)).2 (by rfl)⟩

/-- C5: a list request whose cursor token is present but not well-formed
JSON is answered with the 400 `Invalid next_token format` error, for
every store and both strategies, with no backing-store invocation — never
a 200 success with an empty page, and structurally distinct from a
success response without a next-page token. -/
theorem C5_malformed_cursor_yields_400_before_store (store : Store)
    (rc : Option RequestContext) (gte lte cat search lim : Option PyStr) (t : PyStr)
    (hg : normDateParam gte ≠ none) (hl : normDateParam lte ≠ none)
    (hlim : ∀ s, lim = some s → (pyInt s).isSome = true)
    (ht : t ≠ []) (hparse : Json.parse t = none) :
    lambda_handler store
      { requestContext := rc,
        queryStringParameters := some
          { date_gte := gte, date_lte := lte, category := cat, search := search,
            limit := lim, next_token := some t } } =
      (create_error_response 400 (pystr "Invalid next_token format"), []) := by
  have huser := pyOr_fallback_isEmpty (get_user_id_from_event
    { requestContext := rc,
      queryStringParameters := some
        { date_gte := gte, date_lte := lte, category := cat, search := search,
          limit := lim, next_token := some t } })
  obtain ⟨n, hn⟩ : ∃ n, computeLimit lim = .ok n := by
    cases lim with
    | none => exact ⟨min 50 100, rfl⟩
    | some s =>
      cases hp : pyInt s with
      | none =>
        have := hlim s rfl
        rw [hp] at this
        simp at this
      | some m => exact ⟨min m 100, by simp [computeLimit, hp]⟩
  obtain ⟨g', hg'⟩ := Option.ne_none_iff_exists'.mp hg
  obtain ⟨l', hl'⟩ := Option.ne_none_iff_exists'.mp hl
  have htv := truthyVal_some_of_ne ht
  cases hs : pyTruthy search <;>
    simp [lambda_handler, handlerBody, huser, hn, hg', hl', hs, scan_with_search,
      query_with_filters, buildScanKwargs, buildQueryKwargs, decodeNextToken, htv, hparse]

/-- Witness for C5 at the corrupted token `not-a-real-token`. -/
theorem C5_malformed_cursor_witness :
    lambda_handler emptyStore
      { requestContext := none,
        queryStringParameters := some
          { date_gte := none, date_lte := none, category := none, search := none,
            limit := none, next_token := some (pystr "not-a-real-token") } } =
      (create_error_response 400 (pystr "Invalid next_token format"), []) :=
  C5_malformed_cursor_yields_400_before_store emptyStore none none none none none none
    (pystr "not-a-real-token") (by decide) (by decide) (fun s h => Option.noConfusion h)
    (by decide) (by rfl)

/-- C1 (code evaluation at the failing input): for an event carrying no
resolved identity the handler does not refuse — the hardcoded fallback
`darpankattel` is substituted and the backing store is invoked for
partition `USER#darpankattel`, answering 200, not 401. -/
theorem C1_default_identity_fallback_evaluation :
    get_user_id_from_event eventNoIdentity = none ∧
    lambda_handler emptyStore eventNoIdentity =
      (successResponse (buildResponseData [] none),
       [.queryCall { keyConditionExpression :=
                       ⟨pystr "USER#darpankattel", .beginsWith (pystr "DATE#")⟩,
                     limit := 50, scanIndexForward := false,
                     filterExpression := none, exclusiveStartKey := none }]) ∧
    (successResponse (buildResponseData [] none)).statusCode = 200 :=
  ⟨rfl, rfl, rfl⟩

/-- C2 (code evaluation at the failing input): with records of `u1` dated
2025-01-10 and 2025-01-15 and a request `date__gte=2025-01-15`, date
normalization turns the bound into `2025-01-15T00:00:00Z`, whose key
`DATE#2025-01-15T00:00:00Z` sorts above the equal-date record's key
`DATE#2025-01-15#bbbb2222` (`#` sorts below `T`), so the record fails the
key-range lower bound and the handler returns an empty page instead of
the 2025-01-15 record. -/
theorem C2_normalized_lower_bound_excludes_equal_date :
    validate_and_normalize_date (pystr "2025-01-15") =
      some (pystr "2025-01-15T00:00:00Z") ∧
    satisfiesKeyCond (buildKeyCondition (userPartitionKey (pystr "u1"))
        (some (pystr "2025-01-15T00:00:00Z")) none) itJan15.PK itJan15.SK = false ∧
    lambda_handler (refStore [itJan10, itJan15]) eventU1From15 =
      (successResponse (buildResponseData [] none),
       [.queryCall { keyConditionExpression :=
                       ⟨pystr "USER#u1", .gte (pystr "DATE#2025-01-15T00:00:00Z")⟩,
                     limit := 50, scanIndexForward := false,
                     filterExpression := none, exclusiveStartKey := none }]) ∧
    (buildResponseData [] none).expenses = [] :=
  ⟨rfl, rfl, rfl, rfl⟩
